import Mathlib

/-!
Shallow embedding of the Mari toolkit engine (`src/engine.py`) and proofs
about its documented behaviour.  Python dictionaries carrying metadata are
modelled as structures of optional fields; Python truthiness tests
(`if md.get("task_id")`) are modelled by explicit truthiness predicates on
optional values; functions that may raise model the raise with `Except` or
an explicit `raised` field; side effects (metadata writes, context switches,
widget construction and reparenting) are recorded in explicit action traces.
-/

namespace MariEngine

/-! ## Host version triples (`mari.app.version()`) -/

/-- A Mari version triple, as returned by `mari.app.version()` with its
`major()`, `minor()` and `revision()` accessors. -/
structure MariVersion where
  major : Int
  minor : Int
  revision : Int
deriving DecidableEq, Repr

/-! ## `host_info` (engine.py lines 37-72) -/

/-- The dictionary returned by the `host_info` property. -/
structure HostInfo where
  name : String
  version : String
deriving DecidableEq, Repr

/-- Embedding of the `host_info` property.  Querying the host version can
raise (any exception), which the source catches with a bare `except:`;
the query is therefore passed in as an `Except` value. -/
def host_info (getVersion : Except String MariVersion) : HostInfo :=
  match getVersion with
  | Except.ok v =>
      { name := "Mari",
        version := toString v.major ++ "." ++ toString v.minor ++ "." ++ toString v.revision }
  | Except.error _ => { name := "Mari", version := "unknown" }

/-! ## `pre_app_init` version gating (engine.py lines 74-107) -/

/-- Source constant `MIN_VERSION = (2,6,1)`: completely unsupported below this. -/
def MIN_VERSION : Int × Int × Int := (2, 6, 1)

/-- Source constant `MAX_VERSION = (4,2)`: untested above this, warn. -/
def MAX_VERSION : Int × Int := (4, 2)

/-- The unsupported-version test of `pre_app_init`:
`major < 2 or (major == 2 and minor < 6)`. -/
def versionUnsupported (v : MariVersion) : Bool :=
  v.major < MIN_VERSION.1 || (v.major == MIN_VERSION.1 && v.minor < MIN_VERSION.2.1)

/-- The untested-version test of `pre_app_init`:
`major > 4 or (major == 4 and minor > 2)`. -/
def versionUntested (v : MariVersion) : Bool :=
  v.major > MAX_VERSION.1 || (v.major == MAX_VERSION.1 && v.minor > MAX_VERSION.2)

/-- Outcome of the version-checking part of `pre_app_init`.  `raisedTankError`
records whether a `TankError` was raised; `warned` whether the untested-version
warning was logged; `dialogShown` whether `mari.utils.message` displayed the
warning dialog; `envFlagAfter` the state of the
`SGTK_MARI_VERSION_WARNING_SHOWN` environment flag after the call. -/
structure PreAppOutcome where
  raisedTankError : Bool
  warned : Bool
  dialogShown : Bool
  envFlagAfter : Bool
deriving DecidableEq, Repr

/-- Embedding of the version check in `pre_app_init`.  `hasUi` is the
`has_ui` property, `envFlag` whether `SGTK_MARI_VERSION_WARNING_SHOWN` is in
`os.environ`, `compatMin` the `compatibility_dialog_min_version` setting. -/
def pre_app_init (v : MariVersion) (hasUi envFlag : Bool) (compatMin : Int) :
    PreAppOutcome :=
  if versionUnsupported v then
    { raisedTankError := true, warned := false, dialogShown := false,
      envFlagAfter := envFlag }
  else if versionUntested v then
    let showDlg := hasUi && !envFlag && decide (v.major ≥ compatMin)
    { raisedTankError := false, warned := true, dialogShown := showDlg,
      envFlagAfter := envFlag || showDlg }
  else
    { raisedTankError := false, warned := false, dialogShown := false,
      envFlagAfter := envFlag }

/-! ## `__on_project_opened` (engine.py lines 388-447) -/

/-- Truthiness of an optional integer metadata value, as tested by Python
`if md.get(key)`: absent keys and a stored `0` are both falsy. -/
def truthyInt (v : Option Int) : Bool :=
  match v with
  | none => false
  | some n => n != 0

/-- Truthiness of an optional string metadata value: absent keys and an
empty string are both falsy. -/
def truthyStr (v : Option String) : Bool :=
  match v with
  | none => false
  | some s => s != ""

/-- The toolkit metadata mapping stored on a Mari project, with its optional
keys `task_id`, `entity_id`, `entity_type` and `project_id`.  A key that is
not in the mapping is `none`. -/
structure ProjectMetadata where
  task_id : Option Int
  entity_id : Option Int
  entity_type : Option String
  project_id : Option Int
deriving DecidableEq, Repr

/-- A Mari project as seen through the metadata manager: its toolkit
metadata (absent on projects never touched by the toolkit, i.e.
`get_project_metadata` returns nothing falsy) and its stored version
(`get_project_version` / `set_project_version`). -/
structure Project where
  metadata : Option ProjectMetadata
  version : Option Int
deriving DecidableEq, Repr

/-- The entity reference `{"type": ..., "id": ...}` built by
`__on_project_opened` from the project metadata. -/
structure CtxEntity where
  type : String
  id : Int
deriving DecidableEq, Repr

/-- The priority resolution of the context entity in `__on_project_opened`:
`task_id` (as `Task`), else `entity_id` and `entity_type` together, else
`project_id` (as `Project`), each key tested for truthiness. -/
def deriveCtxEntity (md : ProjectMetadata) : Option CtxEntity :=
  if truthyInt md.task_id then
    some { type := "Task", id := md.task_id.getD 0 }
  else if truthyInt md.entity_id && truthyStr md.entity_type then
    some { type := md.entity_type.getD "", id := md.entity_id.getD 0 }
  else if truthyInt md.project_id then
    some { type := "Project", id := md.project_id.getD 0 }
  else
    none

/-- Side effects performed by `__on_project_opened`, in order. -/
inductive OpenAction (Ctx : Type) where
  | logDebug
  | logError
  | setProjectVersion (v : Int)
  | changeContext (c : Ctx)
deriving DecidableEq, Repr

/-- The observable outcome of one `__on_project_opened` call: the project
state afterwards (its version may have been stamped), the engine context
afterwards, and the trace of side effects in the order performed. -/
structure OpenOutcome (Ctx : Type) where
  proj : Project
  curCtx : Ctx
  actions : List (OpenAction Ctx)
deriving DecidableEq, Repr

/-- The backwards-compatibility step of `__on_project_opened`: stamp
version 1 onto a project whose stored version is not truthy
(`if not self.__metadata_mgr.get_project_version(opened_project)`). -/
def stampProject (proj : Project) : Project :=
  if truthyInt proj.version then proj else { proj with version := some 1 }

/-- The actions performed up to and including the backwards-compatibility
step: the initial debug log, plus the version write when it happens. -/
def stampActions (Ctx : Type) (proj : Project) : List (OpenAction Ctx) :=
  if truthyInt proj.version then [OpenAction.logDebug]
  else [OpenAction.logDebug, OpenAction.setProjectVersion 1]

/-- Whether an action is a context switch. -/
def isChangeContext {Ctx : Type} : OpenAction Ctx → Bool
  | OpenAction.changeContext _ => true
  | _ => false

/-- Embedding of `__on_project_opened`.  `resolver` is
`sgtk.context_from_entity` (its `TankError` carried as a `String`);
`changeContext` is `sgtk.platform.change_context`, the only call whose
exceptions this handler does not catch, so it is the only source of an
`Except.error` result.  `curCtx` is `self.context`. -/
def onProjectOpened {Ctx : Type} [BEq Ctx]
    (resolver : String → Int → Except String Ctx)
    (changeContext : Ctx → Except String Unit)
    (curCtx : Ctx) (proj : Project) (is_new : Bool) :
    Except String (OpenOutcome Ctx) :=
  if is_new then
    -- for now, do nothing with new projects
    Except.ok { proj := proj, curCtx := curCtx, actions := [] }
  else
    match proj.metadata with
    | none =>
        -- the opened project is not Shotgun aware
        Except.ok { proj := proj, curCtx := curCtx,
                    actions := [OpenAction.logDebug, OpenAction.logDebug] }
    | some md =>
        -- backwards compatibility: stamp version 1 when no truthy version
        let proj1 : Project := stampProject proj
        let acts0 : List (OpenAction Ctx) := stampActions Ctx proj
        match deriveCtxEntity md with
        | none =>
            -- failed to determine a context for the project
            Except.ok { proj := proj1, curCtx := curCtx,
                        actions := acts0 ++ [OpenAction.logDebug] }
        | some e =>
            match resolver e.type e.id with
            | Except.error _ =>
                -- TankError from context_from_entity: log and abort
                Except.ok { proj := proj1, curCtx := curCtx,
                            actions := acts0 ++ [OpenAction.logError] }
            | Except.ok ctx =>
                if ctx == curCtx then
                  -- nothing to do, context is the same
                  Except.ok { proj := proj1, curCtx := curCtx, actions := acts0 }
                else
                  match changeContext ctx with
                  | Except.error err => Except.error err
                  | Except.ok _ =>
                      Except.ok { proj := proj1, curCtx := ctx,
                                  actions := acts0 ++
                                    [OpenAction.logDebug,
                                     OpenAction.changeContext ctx] }

/-! ## `show_panel` (engine.py lines 174-246) -/

/-- Source constant SHOTGUN_APP_PALETTE_PREFIX, the string `"panel_"`. -/
def SHOTGUN_APP_PALETTE_PREFIX : String := "panel_"

/-- Source constant `MARI_MAIN_WINDOW_WIDGET_NAME = "MainWindow"`. -/
def MARI_MAIN_WINDOW_WIDGET_NAME : String := "MainWindow"

/-- A Qt widget as far as `show_panel` observes it: its `objectName`, its
identity (`wid`, standing for the object identity of the Python instance)
and the identity of its parent widget, if any. -/
structure Widget where
  name : String
  wid : Nat
  parent : Option Nat
deriving DecidableEq, Repr

/-- A Mari palette: its name (the key used by `mari.palettes.find` and
`mari.palettes.remove`), its display short name and the identity of the
widget it hosts. -/
structure Palette where
  name : String
  shortName : String
  widget : Nat
deriving DecidableEq, Repr

/-- The widget world visible to `show_panel`: `QtGui.QApplication.allWidgets()`
and `mari.palettes`; `nextId` supplies the identity of the next constructed
widget. -/
structure UIState where
  widgets : List Widget
  palettes : List Palette
  nextId : Nat
deriving DecidableEq, Repr

/-- One iteration of the widget scan loop of `show_panel`: an `if`/`elif`
on the widget's `objectName`. -/
def scanStep (widget_id : String) (acc : Option Widget × Option Widget)
    (w : Widget) : Option Widget × Option Widget :=
  if w.name == widget_id then (some w, acc.2)
  else if w.name == MARI_MAIN_WINDOW_WIDGET_NAME then (acc.1, some w)
  else acc

/-- The widget scan loop of `show_panel`: one pass over `allWidgets()`,
remembering the last widget whose name is `widget_id` and the last widget
named `MainWindow` (an `elif`, so a widget is counted at most once). -/
def scanWidgets (ws : List Widget) (widget_id : String) :
    Option Widget × Option Widget :=
  ws.foldl (scanStep widget_id) (none, none)

/-- Embedding of `mari.palettes.find(panel_id)`. -/
def palettesFind (ps : List Palette) (pid : String) : Option Palette :=
  ps.find? (fun p => p.name == pid)

/-- Embedding of `mari.palettes.remove(name)`. -/
def palettesRemove (ps : List Palette) (pname : String) : List Palette :=
  ps.filter (fun p => p.name != pname)

/-- Embedding of `mari.palettes.create(panel_id, widget)`; the short name is set right
afterwards by `setShortName`, modelled separately. -/
def palettesCreate (ps : List Palette) (pid : String) (w : Nat) : List Palette :=
  ps ++ [{ name := pid, shortName := pid, widget := w }]

/-- Embedding of `palette_widget.setShortName(title)` on the palette named `pid`. -/
def palettesSetShortName (ps : List Palette) (pid title : String) : List Palette :=
  ps.map (fun p => if p.name == pid then { p with shortName := title } else p)

/-- The update applied by `setParent`: repoint the parent of the widget of
identity `wid` at `target`, leave every other widget alone. -/
def updParent (wid target : Nat) (w : Widget) : Widget :=
  if w.wid == wid then { w with parent := some target } else w

/-- Embedding of `shotgun_widget.setParent(main_window)`: repoint the parent of the widget
with identity `wid` at `target`. -/
def setParent (ws : List Widget) (wid target : Nat) : List Widget :=
  ws.map (updParent wid target)

/-- A widget update applied to both components of a scan accumulator. -/
def mapScanAcc (u : Widget → Widget) (p : Option Widget × Option Widget) :
    Option Widget × Option Widget :=
  (p.1.map u, p.2.map u)

/-- The externally visible steps of one `show_panel` call, in order. -/
inductive PanelEvent where
  | construct (wid : Nat)
  | reparent (wid : Nat) (par : Nat)
  | removePalette (pname : String)
  | createPalette (pname : String) (wid : Nat)
  | setShortName (pname : String) (title : String)
  | showInFront (pname : String)
deriving DecidableEq, Repr

/-- The two exceptions `show_panel` can raise: the `AttributeError` for Mari
major versions below 4, and the bare `Exception` when no `MainWindow` widget
is found. -/
inductive PanelError where
  | attributeError
  | mainWindowError
deriving DecidableEq, Repr

/-- Outcome of one `show_panel` call: the exception raised (if any), the
returned widget, the widget world afterwards and the ordered event trace. -/
structure PanelResult where
  raised : Option PanelError
  widget : Option Widget
  state : UIState
  events : List PanelEvent
deriving DecidableEq, Repr

/-- Embedding of `show_panel`.  `widgetClassName` is the `objectName` that
the `widget_class` constructor gives a newly built widget (the toolkit
panel classes name themselves after the widget id; this engine does not set
the name itself). -/
def show_panel (v : MariVersion) (panel_id title : String)
    (widgetClassName : String) (st : UIState) : PanelResult :=
  if v.major < 4 then
    { raised := some PanelError.attributeError, widget := none,
      state := st, events := [] }
  else
    let widget_id := SHOTGUN_APP_PALETTE_PREFIX ++ panel_id
    let scan := scanWidgets st.widgets widget_id
    match scan.2 with
    | none =>
        { raised := some PanelError.mainWindowError, widget := none,
          state := st, events := [] }
    | some mw =>
        let found := scan.1
        let cons :=
          match found with
          | none =>
              let w : Widget :=
                { name := widgetClassName, wid := st.nextId, parent := none }
              (w, { st with widgets := st.widgets ++ [w], nextId := st.nextId + 1 },
               [PanelEvent.construct w.wid])
          | some w => (w, st, ([] : List PanelEvent))
        let w := cons.1
        let st1 := cons.2.1
        let evs1 := cons.2.2
        let st2 : UIState := { st1 with widgets := setParent st1.widgets w.wid mw.wid }
        let evs2 := evs1 ++ [PanelEvent.reparent w.wid mw.wid]
        let rem :=
          match palettesFind st2.palettes panel_id with
          | some pw =>
              ({ st2 with palettes := palettesRemove st2.palettes pw.name },
               evs2 ++ [PanelEvent.removePalette pw.name])
          | none => (st2, evs2)
        let st3 := rem.1
        let evs3 := rem.2
        let st4 : UIState := { st3 with palettes := palettesCreate st3.palettes panel_id w.wid }
        let st5 : UIState :=
          { st4 with palettes := palettesSetShortName st4.palettes panel_id title }
        { raised := none,
          widget := some { w with parent := some mw.wid },
          state := st5,
          events := evs3 ++
            [PanelEvent.createPalette panel_id w.wid,
             PanelEvent.setShortName panel_id title,
             PanelEvent.showInFront panel_id] }

/-! ## `_run_app_instance_commands` (engine.py lines 478-538) -/

/-- One entry of `self.commands`: the command name, the owning app instance
(from `value["properties"].get("app")`, absent for engine-level commands)
and the registered callback, kept abstract in `κ`. -/
structure EngineCommand (κ : Type) where
  name : String
  app : Option String
  callback : κ
deriving Repr

/-- One entry of the `run_at_startup` configuration setting. -/
structure StartupEntry where
  app_instance : String
  name : String
deriving DecidableEq, Repr

/-- The warnings `_run_app_instance_commands` can log. -/
inductive StartupWarning where
  | unknownInstance (inst : String)
  | unknownCommand (inst : String) (cmd : String)
deriving DecidableEq, Repr

/-- Embedding of `command_dict = app_instance_commands.setdefault(instance_name, {})`
followed by `command_dict[command_name] = callback`, on an association list
keeping insertion order. -/
def addCommand {κ : Type} (aic : List (String × List (String × κ)))
    (inst : String) (c : String × κ) : List (String × List (String × κ)) :=
  match aic with
  | [] => [(inst, [c])]
  | (i, cs) :: rest =>
      if i == inst then (i, cs ++ [c]) :: rest
      else (i, cs) :: addCommand rest inst c

/-- The first loop of `_run_app_instance_commands`: group the registered
commands by owning app instance, skipping commands without one. -/
def buildAppInstanceCommands {κ : Type} (cmds : List (EngineCommand κ)) :
    List (String × List (String × κ)) :=
  cmds.foldl
    (fun acc c =>
      match c.app with
      | none => acc
      | some inst => addCommand acc inst (c.name, c.callback))
    []

/-- Embedding of `app_instance_commands.get(app_instance_name)`. -/
def lookupInstance {κ : Type} (aic : List (String × List (String × κ)))
    (inst : String) : Option (List (String × κ)) :=
  (aic.find? (fun p => p.1 == inst)).map (fun p => p.2)

/-- Processing of one `run_at_startup` entry: unknown app instance warns and
contributes nothing; an empty command name expands to all commands of the
instance in enumeration order; an unknown command name warns and contributes
nothing. -/
def processEntry {κ : Type} (aic : List (String × List (String × κ)))
    (e : StartupEntry) : List κ × List StartupWarning :=
  match lookupInstance aic e.app_instance with
  | none => ([], [StartupWarning.unknownInstance e.app_instance])
  | some cmdDict =>
      if e.name == "" then
        (cmdDict.map (fun c => c.2), [])
      else
        match (cmdDict.find? (fun c => c.1 == e.name)).map (fun c => c.2) with
        | some cb => ([cb], [])
        | none => ([], [StartupWarning.unknownCommand e.app_instance e.name])

/-- The second loop of `_run_app_instance_commands`: every entry is
processed, its resolved callables appended to `commands_to_run` and its
warnings logged, in entry order. -/
def processEntries {κ : Type} (aic : List (String × List (String × κ))) :
    List StartupEntry → List κ × List StartupWarning
  | [] => ([], [])
  | e :: rest =>
      let r := processEntry aic e
      let rr := processEntries aic rest
      (r.1 ++ rr.1, r.2 ++ rr.2)

/-- Embedding of `_run_app_instance_commands`: the ordered list of callables
that will be invoked (in exactly this order) and the warnings logged. -/
def run_app_instance_commands {κ : Type} (cmds : List (EngineCommand κ))
    (entries : List StartupEntry) : List κ × List StartupWarning :=
  processEntries (buildAppInstanceCommands cmds) entries

/-! ## Theorems -/

/-- C10: `host_info` always returns a dictionary whose name is `"Mari"`; on
a successful host version query the version field is the
`major.minor.revision` string, and if the query raises any exception the
version field is the string `"unknown"`.  The property is a total function
of the query outcome, so it never raises itself. -/
theorem host_info_spec (r : Except String MariVersion) :
    (host_info r).name = "Mari" ∧
    (∀ v : MariVersion, r = Except.ok v →
      (host_info r).version =
        toString v.major ++ "." ++ toString v.minor ++ "." ++ toString v.revision) ∧
    (∀ e : String, r = Except.error e → (host_info r).version = "unknown") := by
  refine ⟨?_, ?_, ?_⟩
  · cases r <;> rfl
  · intro v hv; subst hv; rfl
  · intro e he; subst he; rfl

/-- Closed instance of `host_info_spec`: Mari 3.2v1 reports version
`"3.2.1"`, and a failing version query reports `"unknown"`. -/
theorem host_info_spec_witness :
    (host_info (Except.ok { major := 3, minor := 2, revision := 1 })).version
      = "3.2.1" ∧
    (host_info (Except.error "boom")).version = "unknown" := by
  constructor
  · exact ((host_info_spec (Except.ok { major := 3, minor := 2, revision := 1 })).2.1
      { major := 3, minor := 2, revision := 1 } rfl).trans (by decide)
  · exact (host_info_spec (Except.error "boom")).2.2 "boom" rfl

/-- C7: calling `show_panel` on a Mari whose major version is below 4
raises the `AttributeError` refusal before any widget scan or widget
construction: no widget is created, reparented or mounted (the event trace
is empty) and the widget world is returned untouched. -/
theorem show_panel_refuses_old_mari (v : MariVersion)
    (panel_id title cname : String) (st : UIState) (h : v.major < 4) :
    show_panel v panel_id title cname st =
      { raised := some PanelError.attributeError, widget := none,
        state := st, events := [] } := by
  simp only [show_panel, if_pos h]

/-- Closed instance of `show_panel_refuses_old_mari` at Mari 3.5v2. -/
theorem show_panel_refuses_old_mari_witness :
    show_panel { major := 3, minor := 5, revision := 2 } "pid" "T" "w"
        { widgets := [], palettes := [], nextId := 0 } =
      { raised := some PanelError.attributeError, widget := none,
        state := { widgets := [], palettes := [], nextId := 0 }, events := [] } :=
  show_panel_refuses_old_mari _ _ _ _ _ (by decide)

theorem versionUnsupported_iff (v : MariVersion) :
    versionUnsupported v = true ↔ v.major < 2 ∨ (v.major = 2 ∧ v.minor < 6) := by
  simp [versionUnsupported, MIN_VERSION]

theorem versionUntested_iff (v : MariVersion) :
    versionUntested v = true ↔ 4 < v.major ∨ (v.major = 4 ∧ 2 < v.minor) := by
  simp [versionUntested, MAX_VERSION]

theorem pre_app_init_flag_blocks (v : MariVersion) (hasUi : Bool)
    (compatMin : Int) :
    (pre_app_init v hasUi true compatMin).dialogShown = false := by
  unfold pre_app_init
  split
  · rfl
  · split <;> simp

theorem pre_app_init_sets_flag (v : MariVersion) (hasUi envFlag : Bool)
    (compatMin : Int)
    (h : (pre_app_init v hasUi envFlag compatMin).dialogShown = true) :
    (pre_app_init v hasUi envFlag compatMin).envFlagAfter = true := by
  unfold pre_app_init at h ⊢
  by_cases h1 : versionUnsupported v = true
  · simp [h1] at h
  · by_cases h2 : versionUntested v = true
    · simp only [h1, h2, if_true, if_false, ite_true, ite_false] at h ⊢
      simp at h ⊢
      simp [h]
    · simp [h1, h2] at h

/-- C4: every host version triple whose major.minor is below 2.6 makes
engine construction raise the unsupported-version `TankError`; every
version at/above 2.6 and at/below the 4.2 ceiling constructs without error
or warning; versions above the ceiling do not fail but log a warning, with
the warning dialog gated by `has_ui`, the `SGTK_MARI_VERSION_WARNING_SHOWN`
environment flag and the `compatibility_dialog_min_version` setting, and
shown at most once per process: any call that shows it sets the flag, and
no later call with the flag set shows it again. -/
theorem pre_app_init_version_gate (v : MariVersion) (hasUi envFlag : Bool)
    (compatMin : Int) :
    ((v.major < 2 ∨ (v.major = 2 ∧ v.minor < 6)) →
      (pre_app_init v hasUi envFlag compatMin).raisedTankError = true) ∧
    ((2 < v.major ∨ (v.major = 2 ∧ 6 ≤ v.minor)) →
      (v.major < 4 ∨ (v.major = 4 ∧ v.minor ≤ 2)) →
      pre_app_init v hasUi envFlag compatMin =
        { raisedTankError := false, warned := false, dialogShown := false,
          envFlagAfter := envFlag }) ∧
    ((4 < v.major ∨ (v.major = 4 ∧ 2 < v.minor)) →
      (pre_app_init v hasUi envFlag compatMin).raisedTankError = false ∧
      (pre_app_init v hasUi envFlag compatMin).warned = true ∧
      (pre_app_init v hasUi envFlag compatMin).dialogShown =
        (hasUi && !envFlag && decide (v.major ≥ compatMin)) ∧
      (envFlag = true →
        (pre_app_init v hasUi envFlag compatMin).dialogShown = false)) ∧
    (∀ (v2 : MariVersion) (hasUi2 : Bool) (compatMin2 : Int),
      (pre_app_init v hasUi envFlag compatMin).dialogShown = true →
      (pre_app_init v2 hasUi2
          (pre_app_init v hasUi envFlag compatMin).envFlagAfter
          compatMin2).dialogShown = false) := by
  refine ⟨?_, ?_, ?_, ?_⟩
  · intro h
    have hu : versionUnsupported v = true := (versionUnsupported_iff v).2 h
    simp [pre_app_init, hu]
  · intro h1 h2
    have hu : ¬ versionUnsupported v = true := by
      rw [versionUnsupported_iff]; omega
    have hn : ¬ versionUntested v = true := by
      rw [versionUntested_iff]; omega
    simp [pre_app_init, hu, hn]
  · intro h
    have hu : ¬ versionUnsupported v = true := by
      rw [versionUnsupported_iff]; omega
    have hn : versionUntested v = true := (versionUntested_iff v).2 h
    refine ⟨?_, ?_, ?_, ?_⟩ <;> simp [pre_app_init, hu, hn]
    intro hf
    subst hf
    simp
  · intro v2 hasUi2 compatMin2 hshown
    rw [pre_app_init_sets_flag v hasUi envFlag compatMin hshown]
    exact pre_app_init_flag_blocks v2 hasUi2 compatMin2

/-- Closed instances of `pre_app_init_version_gate`: Mari 2.5 fails
construction, Mari 3.0 constructs silently, Mari 4.3 warns without failing,
and after a call that showed the dialog a second call does not show it. -/
theorem pre_app_init_version_gate_witness :
    (pre_app_init { major := 2, minor := 5, revision := 0 } true false 0).raisedTankError
      = true ∧
    pre_app_init { major := 3, minor := 0, revision := 0 } true false 0 =
      { raisedTankError := false, warned := false, dialogShown := false,
        envFlagAfter := false } ∧
    (pre_app_init { major := 4, minor := 3, revision := 0 } true false 0).warned
      = true ∧
    (pre_app_init { major := 4, minor := 3, revision := 0 } true false 0).dialogShown
      = true ∧
    (pre_app_init { major := 4, minor := 3, revision := 0 } true
        (pre_app_init { major := 4, minor := 3, revision := 0 } true false 0).envFlagAfter
        0).dialogShown = false := by
  refine ⟨?_, ?_, ?_, ?_, ?_⟩
  · exact (pre_app_init_version_gate { major := 2, minor := 5, revision := 0 }
      true false 0).1 (by decide)
  · exact (pre_app_init_version_gate { major := 3, minor := 0, revision := 0 }
      true false 0).2.1 (by decide) (by decide)
  · exact ((pre_app_init_version_gate { major := 4, minor := 3, revision := 0 }
      true false 0).2.2.1 (by decide)).2.1
  · exact (((pre_app_init_version_gate { major := 4, minor := 3, revision := 0 }
      true false 0).2.2.1 (by decide)).2.2.1).trans (by decide)
  · exact (pre_app_init_version_gate { major := 4, minor := 3, revision := 0 }
      true false 0).2.2.2 { major := 4, minor := 3, revision := 0 } true 0
      (by decide)

theorem truthyInt_zero : truthyInt (some 0) = false := rfl

/-- C9: the priority resolution tests metadata keys by Python truthiness,
not by key existence: a stored `task_id = 0` behaves exactly like an absent
`task_id` and falls through to the `entity_id`/`entity_type` case, and a
stored `entity_id = 0` behaves like an absent one and falls through to the
`project_id` case. -/
theorem metadata_truthiness (md : ProjectMetadata) :
    (deriveCtxEntity { md with task_id := some 0 } =
      deriveCtxEntity { md with task_id := none }) ∧
    (deriveCtxEntity { md with entity_id := some 0 } =
      deriveCtxEntity { md with entity_id := none }) ∧
    (truthyInt md.entity_id = true → truthyStr md.entity_type = true →
      deriveCtxEntity { md with task_id := some 0 } =
        some { type := md.entity_type.getD "", id := md.entity_id.getD 0 }) ∧
    (truthyInt md.project_id = true →
      deriveCtxEntity { md with task_id := some 0, entity_id := some 0 } =
        some { type := "Project", id := md.project_id.getD 0 }) := by
  refine ⟨?_, ?_, ?_, ?_⟩
  · simp [deriveCtxEntity, truthyInt_zero, truthyInt]
  · simp [deriveCtxEntity, truthyInt_zero, truthyInt]
  · intro h1 h2
    simp [deriveCtxEntity, truthyInt_zero, h1, h2]
  · intro h
    simp [deriveCtxEntity, truthyInt_zero, h]

/-- Closed instance of `metadata_truthiness`: with every key stored,
`task_id = 0` resolves to the entity pair, and `task_id = entity_id = 0`
resolves to the project. -/
theorem metadata_truthiness_witness :
    deriveCtxEntity
        { task_id := some 0, entity_id := some 3, entity_type := some "Shot",
          project_id := some 11 } =
      some { type := "Shot", id := 3 } ∧
    deriveCtxEntity
        { task_id := some 0, entity_id := some 0, entity_type := some "Shot",
          project_id := some 11 } =
      some { type := "Project", id := 11 } := by
  constructor
  · have h := (metadata_truthiness
      { task_id := some 5, entity_id := some 3, entity_type := some "Shot",
        project_id := some 11 }).2.2.1 (by decide) (by decide)
    simpa using h
  · have h := (metadata_truthiness
      { task_id := some 5, entity_id := some 3, entity_type := some "Shot",
        project_id := some 11 }).2.2.2 (by decide)
    simpa using h

/-- C6: opening a project with no stored toolkit metadata never changes the
active context and performs no context switch, whatever the `is_new` flag
is; and every newly created project (`is_new` true) is left alone entirely. -/
theorem no_metadata_no_context_change {Ctx : Type} [BEq Ctx]
    (resolver : String → Int → Except String Ctx)
    (changeContext : Ctx → Except String Unit)
    (curCtx : Ctx) (proj : Project) (is_new : Bool) :
    (proj.metadata = none →
      ∃ out, onProjectOpened resolver changeContext curCtx proj is_new =
          Except.ok out ∧
        out.proj = proj ∧ out.curCtx = curCtx ∧
        out.actions.all (fun a => !isChangeContext a) = true) ∧
    (is_new = true →
      onProjectOpened resolver changeContext curCtx proj is_new =
        Except.ok { proj := proj, curCtx := curCtx, actions := [] }) := by
  constructor
  · intro h
    cases is_new
    · refine ⟨OpenOutcome.mk proj curCtx [OpenAction.logDebug, OpenAction.logDebug],
        ?_, rfl, rfl, rfl⟩
      simp [onProjectOpened, h]
    · refine ⟨OpenOutcome.mk proj curCtx [], ?_, rfl, rfl, rfl⟩
      simp [onProjectOpened]
  · intro h
    subst h
    simp [onProjectOpened]

/-- Closed instance of `no_metadata_no_context_change` over `Ctx = Nat`:
a metadata-free project leaves the context at `0`, as does a new project. -/
theorem no_metadata_no_context_change_witness :
    (∃ out, onProjectOpened (fun _ _ => Except.ok (9 : Nat))
          (fun _ => Except.ok ()) 0 { metadata := none, version := none } false =
        Except.ok out ∧
      out.proj = { metadata := none, version := none } ∧ out.curCtx = 0 ∧
      out.actions.all (fun a => !isChangeContext a) = true) ∧
    onProjectOpened (fun _ _ => Except.ok (9 : Nat)) (fun _ => Except.ok ()) 0
        { metadata := none, version := none } true =
      Except.ok { proj := { metadata := none, version := none }, curCtx := 0,
                  actions := [] } :=
  ⟨(no_metadata_no_context_change (fun _ _ => Except.ok (9 : Nat))
      (fun _ => Except.ok ()) 0 { metadata := none, version := none } false).1 rfl,
   (no_metadata_no_context_change (fun _ _ => Except.ok (9 : Nat))
      (fun _ => Except.ok ()) 0 { metadata := none, version := none } true).2 rfl⟩

/-- C3: every abort path of the project-opened handler — new project,
missing metadata, no derivable entity, resolver failure — returns normally
(`Except.ok`, never an exception), leaves the current context unchanged,
and performs nothing beyond logging and the backward-compatibility version
stamp. -/
theorem on_project_opened_abort_silent {Ctx : Type} [BEq Ctx]
    (resolver : String → Int → Except String Ctx)
    (changeContext : Ctx → Except String Unit)
    (curCtx : Ctx) (proj : Project) (is_new : Bool) :
    (is_new = true →
      onProjectOpened resolver changeContext curCtx proj is_new =
        Except.ok { proj := proj, curCtx := curCtx, actions := [] }) ∧
    (proj.metadata = none →
      onProjectOpened resolver changeContext curCtx proj false =
        Except.ok { proj := proj, curCtx := curCtx,
                    actions := [OpenAction.logDebug, OpenAction.logDebug] }) ∧
    (∀ md, proj.metadata = some md → deriveCtxEntity md = none →
      onProjectOpened resolver changeContext curCtx proj false =
        Except.ok { proj := stampProject proj, curCtx := curCtx,
                    actions := stampActions Ctx proj ++ [OpenAction.logDebug] }) ∧
    (∀ md e err, proj.metadata = some md → deriveCtxEntity md = some e →
      resolver e.type e.id = Except.error err →
      onProjectOpened resolver changeContext curCtx proj false =
        Except.ok { proj := stampProject proj, curCtx := curCtx,
                    actions := stampActions Ctx proj ++ [OpenAction.logError] }) := by
  refine ⟨?_, ?_, ?_, ?_⟩
  · intro h; subst h; simp [onProjectOpened]
  · intro h; simp [onProjectOpened, h]
  · intro md hmd hder
    simp [onProjectOpened, hmd, hder]
  · intro md e err hmd hder hres
    simp [onProjectOpened, hmd, hder, hres]

/-- Closed instances of `on_project_opened_abort_silent` over `Ctx = Nat`:
all four abort paths exercised on concrete projects. -/
theorem on_project_opened_abort_silent_witness :
    onProjectOpened (fun _ _ => Except.ok (9 : Nat)) (fun _ => Except.ok ()) 0
        { metadata := none, version := none } true =
      Except.ok { proj := { metadata := none, version := none }, curCtx := 0,
                  actions := [] } ∧
    onProjectOpened (fun _ _ => Except.ok (9 : Nat)) (fun _ => Except.ok ()) 0
        { metadata := none, version := none } false =
      Except.ok { proj := { metadata := none, version := none }, curCtx := 0,
                  actions := [OpenAction.logDebug, OpenAction.logDebug] } ∧
    onProjectOpened (fun _ _ => Except.ok (9 : Nat)) (fun _ => Except.ok ()) 0
        { metadata := some { task_id := some 0, entity_id := none,
                             entity_type := none, project_id := none },
          version := some 2 } false =
      Except.ok { proj := { metadata := some { task_id := some 0, entity_id := none,
                                               entity_type := none, project_id := none },
                            version := some 2 },
                  curCtx := 0,
                  actions := [OpenAction.logDebug, OpenAction.logDebug] } ∧
    onProjectOpened (fun _ _ => Except.error "no ctx") (fun _ => Except.ok ()) 0
        { metadata := some { task_id := some 7, entity_id := none,
                             entity_type := none, project_id := none },
          version := some 2 } false =
      Except.ok { proj := { metadata := some { task_id := some 7, entity_id := none,
                                               entity_type := none, project_id := none },
                            version := some 2 },
                  curCtx := 0,
                  actions := [OpenAction.logDebug, OpenAction.logError] } := by
  refine ⟨?_, ?_, ?_, ?_⟩
  · exact (on_project_opened_abort_silent (fun _ _ => Except.ok (9 : Nat))
      (fun _ => Except.ok ()) 0 { metadata := none, version := none } true).1 rfl
  · exact (on_project_opened_abort_silent (fun _ _ => Except.ok (9 : Nat))
      (fun _ => Except.ok ()) 0 { metadata := none, version := none } false).2.1 rfl
  · exact ((on_project_opened_abort_silent (fun _ _ => Except.ok (9 : Nat))
      (fun _ => Except.ok ()) 0
      { metadata := some { task_id := some 0, entity_id := none,
                           entity_type := none, project_id := none },
        version := some 2 } false).2.2.1
      { task_id := some 0, entity_id := none, entity_type := none,
        project_id := none } rfl rfl).trans rfl
  · exact ((on_project_opened_abort_silent (fun _ _ => Except.error "no ctx")
      (fun _ => Except.ok ()) 0
      { metadata := some { task_id := some 7, entity_id := none,
                           entity_type := none, project_id := none },
        version := some 2 } false).2.2.2
      { task_id := some 7, entity_id := none, entity_type := none,
        project_id := none } { type := "Task", id := 7 } "no ctx"
      rfl rfl rfl).trans rfl

/-- C1: the entity reference is derived by strict priority — a truthy
`task_id` gives `{Task, task_id}` whatever else is present; otherwise a
truthy `entity_id` together with a truthy `entity_type` gives
`{entity_type, entity_id}`; otherwise a truthy `project_id` gives
`{Project, project_id}`; concretely `task_id = 7` wins over all other keys;
and when none of the keys is derivable the handler returns normally with
the context unchanged and no context switch among its actions. -/
theorem ctx_entity_priority {Ctx : Type} [BEq Ctx]
    (resolver : String → Int → Except String Ctx)
    (changeContext : Ctx → Except String Unit)
    (curCtx : Ctx) (proj : Project) (md : ProjectMetadata) :
    (truthyInt md.task_id = true →
      deriveCtxEntity md = some { type := "Task", id := md.task_id.getD 0 }) ∧
    (truthyInt md.task_id = false → truthyInt md.entity_id = true →
      truthyStr md.entity_type = true →
      deriveCtxEntity md =
        some { type := md.entity_type.getD "", id := md.entity_id.getD 0 }) ∧
    (truthyInt md.task_id = false →
      (truthyInt md.entity_id && truthyStr md.entity_type) = false →
      truthyInt md.project_id = true →
      deriveCtxEntity md = some { type := "Project", id := md.project_id.getD 0 }) ∧
    (deriveCtxEntity
        { task_id := some 7, entity_id := some 3, entity_type := some "Shot",
          project_id := some 11 } =
      some { type := "Task", id := 7 }) ∧
    (proj.metadata = some md → deriveCtxEntity md = none →
      onProjectOpened resolver changeContext curCtx proj false =
        Except.ok { proj := stampProject proj, curCtx := curCtx,
                    actions := stampActions Ctx proj ++ [OpenAction.logDebug] } ∧
      ((stampActions Ctx proj ++ [OpenAction.logDebug]).all
          (fun a => !isChangeContext a)) = true) := by
  refine ⟨?_, ?_, ?_, by decide, ?_⟩
  · intro h
    simp [deriveCtxEntity, h]
  · intro h1 h2 h3
    simp [deriveCtxEntity, h1, h2, h3]
  · intro h1 h2 h3
    simp [deriveCtxEntity, h1, h2, h3]
  · intro hmd hder
    constructor
    · simp [onProjectOpened, hmd, hder]
    · cases h : truthyInt proj.version <;>
        simp [stampActions, h, isChangeContext]

/-- Closed instances of `ctx_entity_priority` over `Ctx = Nat`: a
metadata mapping holding every key resolves to `{Task, 7}`, and a mapping
with no derivable key makes the handler return normally. -/
theorem ctx_entity_priority_witness :
    deriveCtxEntity
        { task_id := some 7, entity_id := some 3, entity_type := some "Shot",
          project_id := some 11 } =
      some { type := "Task", id := 7 } ∧
    onProjectOpened (fun _ _ => Except.ok (9 : Nat)) (fun _ => Except.ok ()) 0
        { metadata := some { task_id := none, entity_id := none,
                             entity_type := none, project_id := none },
          version := some 4 } false =
      Except.ok { proj := { metadata := some { task_id := none, entity_id := none,
                                               entity_type := none, project_id := none },
                            version := some 4 },
                  curCtx := 0,
                  actions := [OpenAction.logDebug, OpenAction.logDebug] } := by
  constructor
  · have h := (ctx_entity_priority (fun _ _ => Except.ok (9 : Nat))
      (fun _ => Except.ok ()) (0 : Nat) { metadata := none, version := none }
      { task_id := some 7, entity_id := some 3, entity_type := some "Shot",
        project_id := some 11 }).1 (by decide)
    simpa using h
  · exact (((ctx_entity_priority (fun _ _ => Except.ok (9 : Nat))
      (fun _ => Except.ok ()) (0 : Nat)
      { metadata := some { task_id := none, entity_id := none,
                           entity_type := none, project_id := none },
        version := some 4 }
      { task_id := none, entity_id := none, entity_type := none,
        project_id := none }).2.2.2.2 rfl rfl).1).trans rfl

/-- C5 counterexample: the version write is gated by truthiness, not by
absence.  A project whose stored version is present but equal to `0` has
its version overwritten to `1` (and a `set_project_version` call performed),
refuting the claim that the write happens only when the version is absent. -/
theorem version_stamp_counterexample :
    onProjectOpened (fun _ _ => Except.error "e") (fun _ => Except.ok ())
        (0 : Nat)
        { metadata := some { task_id := some 7, entity_id := none,
                             entity_type := none, project_id := none },
          version := some 0 }
        false =
      Except.ok
        { proj := { metadata := some { task_id := some 7, entity_id := none,
                                       entity_type := none, project_id := none },
                    version := some 1 },
          curCtx := 0,
          actions := [OpenAction.logDebug, OpenAction.setProjectVersion 1,
                      OpenAction.logError] } := rfl

theorem onProjectOpened_ok_shape {Ctx : Type} [BEq Ctx]
    (resolver : String → Int → Except String Ctx)
    (changeContext : Ctx → Except String Unit)
    (curCtx : Ctx) (proj : Project) (md : ProjectMetadata)
    (out : OpenOutcome Ctx)
    (hmd : proj.metadata = some md)
    (hok : onProjectOpened resolver changeContext curCtx proj false =
      Except.ok out) :
    out.proj = stampProject proj ∧
    ∃ tail, out.actions = stampActions Ctx proj ++ tail ∧
      ∀ n, OpenAction.setProjectVersion n ∉ tail := by
  simp only [onProjectOpened, hmd, Bool.false_eq_true, if_false] at hok
  split at hok
  · simp only [Except.ok.injEq] at hok
    subst hok
    exact ⟨rfl, [OpenAction.logDebug], rfl, by simp⟩
  · split at hok
    · simp only [Except.ok.injEq] at hok
      subst hok
      exact ⟨rfl, [OpenAction.logError], rfl, by simp⟩
    · split at hok
      · simp only [Except.ok.injEq] at hok
        subst hok
        exact ⟨rfl, [], by simp, by simp⟩
      · split at hok
        · cases hok
        · simp only [Except.ok.injEq] at hok
          subst hok
          refine ⟨rfl, [OpenAction.logDebug, OpenAction.changeContext _],
            rfl, ?_⟩
          simp

/-- C5 amended: during project-opened handling of a project with toolkit
metadata, the version write happens exactly when the stored version is not
truthy (absent or zero): a project lacking a version ends with version `1`,
while any truthy stored version — for example `5` — is left unchanged and
no `set_project_version` call is made, so the step is idempotent. -/
theorem version_stamp_amended {Ctx : Type} [BEq Ctx]
    (resolver : String → Int → Except String Ctx)
    (changeContext : Ctx → Except String Unit)
    (curCtx : Ctx) (proj : Project) (md : ProjectMetadata)
    (out : OpenOutcome Ctx)
    (hmd : proj.metadata = some md)
    (hok : onProjectOpened resolver changeContext curCtx proj false =
      Except.ok out) :
    (proj.version = none → out.proj.version = some 1) ∧
    (truthyInt proj.version = false → out.proj.version = some 1) ∧
    (truthyInt proj.version = true →
      out.proj = proj ∧ ∀ n, OpenAction.setProjectVersion n ∉ out.actions) ∧
    (proj.version = some 5 → out.proj.version = some 5) ∧
    out.proj.metadata = proj.metadata := by
  obtain ⟨hshape, tail, hacts, htail⟩ :=
    onProjectOpened_ok_shape resolver changeContext curCtx proj md out hmd hok
  refine ⟨?_, ?_, ?_, ?_, ?_⟩
  · intro h
    rw [hshape]
    simp [stampProject, truthyInt, h]
  · intro h
    rw [hshape]
    simp [stampProject, h]
  · intro h
    constructor
    · rw [hshape]
      simp [stampProject, h]
    · intro n
      rw [hacts]
      simp only [stampActions, h, if_true, ite_true, List.mem_append,
        List.mem_singleton, List.mem_cons, List.not_mem_nil]
      intro hc
      rcases hc with hc | hc
      · simp at hc
      · exact htail n hc
  · intro h
    rw [hshape]
    simp [stampProject, truthyInt, h]
  · rw [hshape]
    unfold stampProject
    split <;> rfl

/-- Closed instance of `version_stamp_amended` over `Ctx = Nat`: a project
with metadata and no version ends the handler with version `1`, and a
project with version `5` keeps it. -/
theorem version_stamp_amended_witness :
    (({ proj := { metadata := some { task_id := some 7, entity_id := none,
                                     entity_type := none, project_id := none },
                  version := some 1 },
        curCtx := 0,
        actions := [OpenAction.logDebug, OpenAction.setProjectVersion 1,
                    OpenAction.logError] } : OpenOutcome Nat)).proj.version
      = some 1 ∧
    (({ proj := { metadata := some { task_id := some 7, entity_id := none,
                                     entity_type := none, project_id := none },
                  version := some 5 },
        curCtx := 0,
        actions := [OpenAction.logDebug, OpenAction.logError] } :
        OpenOutcome Nat)).proj.version = some 5 := by
  constructor
  · exact (version_stamp_amended (fun _ _ => Except.error "e")
      (fun _ => Except.ok ()) 0
      { metadata := some { task_id := some 7, entity_id := none,
                           entity_type := none, project_id := none },
        version := none }
      { task_id := some 7, entity_id := none, entity_type := none,
        project_id := none } _ rfl rfl).1 rfl
  · exact (version_stamp_amended (fun _ _ => Except.error "e")
      (fun _ => Except.ok ()) 0
      { metadata := some { task_id := some 7, entity_id := none,
                           entity_type := none, project_id := none },
        version := some 5 }
      { task_id := some 7, entity_id := none, entity_type := none,
        project_id := none } _ rfl rfl).2.2.2.1 rfl

/-- C8: startup command dispatch.  With instance `A` registering `x` and
`y` and instance `B` registering `doit`, the configuration
`[{A, ""}, {B, "doit"}]` resolves to the invocation sequence `x, y, doit`
(the empty name expanding to all of the instance's commands in enumeration
order); an entry naming an instance that registered nothing, or a command
unknown to its instance, is logged as a warning and skipped while every
remaining entry is still processed. -/
theorem run_at_startup_dispatch :
    (run_app_instance_commands
        [{ name := "x", app := some "A", callback := (0 : Nat) },
         { name := "y", app := some "A", callback := 1 },
         { name := "doit", app := some "B", callback := 2 }]
        [{ app_instance := "A", name := "" },
         { app_instance := "B", name := "doit" }] =
      ([0, 1, 2], [])) ∧
    (run_app_instance_commands
        [{ name := "x", app := some "A", callback := (0 : Nat) },
         { name := "y", app := some "A", callback := 1 },
         { name := "doit", app := some "B", callback := 2 }]
        [{ app_instance := "A", name := "" },
         { app_instance := "C", name := "doit" },
         { app_instance := "B", name := "doit" }] =
      ([0, 1, 2], [StartupWarning.unknownInstance "C"])) ∧
    (∀ (κ : Type) (cmds : List (EngineCommand κ)) (e : StartupEntry)
        (rest : List StartupEntry),
      lookupInstance (buildAppInstanceCommands cmds) e.app_instance = none →
      run_app_instance_commands cmds (e :: rest) =
        ((run_app_instance_commands cmds rest).1,
         StartupWarning.unknownInstance e.app_instance ::
           (run_app_instance_commands cmds rest).2)) ∧
    (∀ (κ : Type) (cmds : List (EngineCommand κ)) (e : StartupEntry)
        (rest : List StartupEntry) (cmdDict : List (String × κ)),
      lookupInstance (buildAppInstanceCommands cmds) e.app_instance =
        some cmdDict →
      e.name ≠ "" →
      cmdDict.find? (fun c => c.1 == e.name) = none →
      run_app_instance_commands cmds (e :: rest) =
        ((run_app_instance_commands cmds rest).1,
         StartupWarning.unknownCommand e.app_instance e.name ::
           (run_app_instance_commands cmds rest).2)) := by
  refine ⟨rfl, rfl, ?_, ?_⟩
  · intro κ cmds e rest h
    simp [run_app_instance_commands, processEntries, processEntry, h]
  · intro κ cmds e rest cmdDict h hne hfind
    simp [run_app_instance_commands, processEntries, processEntry, h, hne, hfind]

/-- Closed instances of `run_at_startup_dispatch`: an unknown app instance
and an unknown command name each warn, skip, and leave the rest of the
dispatch intact. -/
theorem run_at_startup_dispatch_witness :
    run_app_instance_commands
        [{ name := "doit", app := some "B", callback := (2 : Nat) }]
        [{ app_instance := "C", name := "x" },
         { app_instance := "B", name := "doit" }] =
      ([2], [StartupWarning.unknownInstance "C"]) ∧
    run_app_instance_commands
        [{ name := "doit", app := some "B", callback := (2 : Nat) }]
        [{ app_instance := "B", name := "nope" },
         { app_instance := "B", name := "doit" }] =
      ([2], [StartupWarning.unknownCommand "B" "nope"]) := by
  constructor
  · exact ((run_at_startup_dispatch).2.2.1 Nat
      [{ name := "doit", app := some "B", callback := (2 : Nat) }]
      { app_instance := "C", name := "x" }
      [{ app_instance := "B", name := "doit" }] rfl).trans rfl
  · exact ((run_at_startup_dispatch).2.2.2 Nat
      [{ name := "doit", app := some "B", callback := (2 : Nat) }]
      { app_instance := "B", name := "nope" }
      [{ app_instance := "B", name := "doit" }]
      [("doit", 2)] rfl (by decide) rfl).trans rfl

theorem updParent_name (wid t : Nat) (w : Widget) :
    (updParent wid t w).name = w.name := by
  unfold updParent; split <;> rfl

theorem updParent_wid (wid t : Nat) (w : Widget) :
    (updParent wid t w).wid = w.wid := by
  unfold updParent; split <;> rfl

theorem scanStep_map (n : String) (wid t : Nat)
    (acc : Option Widget × Option Widget) (w : Widget) :
    scanStep n (mapScanAcc (updParent wid t) acc) (updParent wid t w) =
      mapScanAcc (updParent wid t) (scanStep n acc w) := by
  unfold scanStep
  rw [updParent_name]
  by_cases h1 : (w.name == n)
  · simp [h1, mapScanAcc]
  · by_cases h2 : (w.name == MARI_MAIN_WINDOW_WIDGET_NAME) <;>
      simp [h1, h2, mapScanAcc]

theorem foldl_scanStep_map (n : String) (wid t : Nat) (ws : List Widget) :
    ∀ acc : Option Widget × Option Widget,
      List.foldl (scanStep n) (mapScanAcc (updParent wid t) acc)
          (List.map (updParent wid t) ws) =
        mapScanAcc (updParent wid t) (List.foldl (scanStep n) acc ws) := by
  induction ws with
  | nil => intro acc; rfl
  | cons w ws ih =>
      intro acc
      simp only [List.map_cons, List.foldl_cons, scanStep_map]
      exact ih _

theorem scanWidgets_setParent (ws : List Widget) (wid t : Nat) (n : String) :
    scanWidgets (setParent ws wid t) n =
      mapScanAcc (updParent wid t) (scanWidgets ws n) :=
  foldl_scanStep_map n wid t ws (none, none)

theorem scanWidgets_append_one (ws : List Widget) (w : Widget) (n : String) :
    scanWidgets (ws ++ [w]) n = scanStep n (scanWidgets ws n) w := by
  unfold scanWidgets
  rw [List.foldl_append]
  rfl

theorem palettesRemove_filter (ps : List Palette) (x : String) :
    (palettesRemove ps x).filter (fun p => p.name == x) = [] := by
  induction ps with
  | nil => rfl
  | cons p ps ih =>
      by_cases h : (p.name == x)
      · have hb : (p.name != x) = false := by simp [bne, h]
        simp only [palettesRemove, List.filter_cons, hb] at ih ⊢
        exact ih
      · have hb : (p.name != x) = true := by simp [bne, h]
        simp only [palettesRemove, List.filter_cons, hb, if_true, h] at ih ⊢
        simp [h, ih]

theorem palettesFind_none_filter (ps : List Palette) (pid : String)
    (h : palettesFind ps pid = none) :
    ps.filter (fun p => p.name == pid) = [] := by
  rw [List.filter_eq_nil_iff]
  intro p hp hname
  have := List.find?_eq_none.1 h p hp
  exact this hname

theorem palettesFind_some_name (ps : List Palette) (pid : String) (pw : Palette)
    (h : palettesFind ps pid = some pw) : pw.name = pid := by
  have := List.find?_some h
  exact eq_of_beq this

theorem length_filter_setShortName (ps : List Palette) (pid title q : String) :
    ((palettesSetShortName ps pid title).filter (fun p => p.name == q)).length =
      (ps.filter (fun p => p.name == q)).length := by
  induction ps with
  | nil => rfl
  | cons p ps ih =>
      have hname :
          (if (p.name == pid) = true then { p with shortName := title } else p).name
            = p.name := by split <;> rfl
      by_cases h : (p.name == q)
      · simp only [palettesSetShortName, List.map_cons, List.filter_cons, hname, h,
          if_true, List.length_cons]
        simpa [palettesSetShortName] using ih
      · simp only [palettesSetShortName, List.map_cons, List.filter_cons, hname, h,
          Bool.false_eq_true, if_false]
        simpa [palettesSetShortName] using ih

theorem palettes_after_unique (ps : List Palette) (pid : String) (wid : Nat)
    (title : String) :
    ((palettesSetShortName
        (palettesCreate
          (match palettesFind ps pid with
           | some pw => palettesRemove ps pw.name
           | none => ps) pid wid) pid title).filter
      (fun p => p.name == pid)).length = 1 := by
  rw [length_filter_setShortName]
  cases hp : palettesFind ps pid with
  | none =>
      simp only [palettesCreate, List.filter_append,
        palettesFind_none_filter ps pid hp]
      simp
  | some pw =>
      simp only [palettesCreate, List.filter_append,
        palettesFind_some_name ps pid pw hp, palettesRemove_filter]
      simp

theorem show_panel_found (v : MariVersion) (pid title cname : String)
    (ws : List Widget) (ps : List Palette) (nid : Nat) (w0 mw : Widget)
    (hv : ¬ v.major < 4)
    (hscan : scanWidgets ws ( SHOTGUN_APP_PALETTE_PREFIX ++ pid) =
      (some w0, some mw)) :
    show_panel v pid title cname { widgets := ws, palettes := ps, nextId := nid } =
      { raised := none,
        widget := some { w0 with parent := some mw.wid },
        state :=
          { widgets := setParent ws w0.wid mw.wid,
            palettes := palettesSetShortName
              (palettesCreate
                (match palettesFind ps pid with
                 | some pw => palettesRemove ps pw.name
                 | none => ps) pid w0.wid) pid title,
            nextId := nid },
        events :=
          PanelEvent.reparent w0.wid mw.wid ::
            ((match palettesFind ps pid with
              | some pw => [PanelEvent.removePalette pw.name]
              | none => []) ++
             [PanelEvent.createPalette pid w0.wid,
              PanelEvent.setShortName pid title,
              PanelEvent.showInFront pid]) } := by
  simp only [show_panel, hscan, if_neg hv]
  cases hp : palettesFind ps pid <;> simp [hp, setParent]

theorem show_panel_notfound (v : MariVersion) (pid title cname : String)
    (ws : List Widget) (ps : List Palette) (nid : Nat) (mw : Widget)
    (hv : ¬ v.major < 4)
    (hscan : scanWidgets ws ( SHOTGUN_APP_PALETTE_PREFIX ++ pid) =
      (none, some mw)) :
    show_panel v pid title cname { widgets := ws, palettes := ps, nextId := nid } =
      { raised := none,
        widget := some { name := cname, wid := nid, parent := some mw.wid },
        state :=
          { widgets := setParent
              (ws ++ [{ name := cname, wid := nid, parent := none }])
              nid mw.wid,
            palettes := palettesSetShortName
              (palettesCreate
                (match palettesFind ps pid with
                 | some pw => palettesRemove ps pw.name
                 | none => ps) pid nid) pid title,
            nextId := nid + 1 },
        events :=
          PanelEvent.construct nid ::
            PanelEvent.reparent nid mw.wid ::
            ((match palettesFind ps pid with
              | some pw => [PanelEvent.removePalette pw.name]
              | none => []) ++
             [PanelEvent.createPalette pid nid,
              PanelEvent.setShortName pid title,
              PanelEvent.showInFront pid]) } := by
  simp only [show_panel, hscan, if_neg hv]
  cases hp : palettesFind ps pid <;> simp [hp, setParent]

/-- C2: on a supported host version with the main window present,
`show_panel` succeeds; if a widget named `panel_ + panel_id` already exists
it is returned itself (same identity, merely reparented, never
reconstructed); the reparent under the main window happens before any
pre-existing palette container is removed (everything earlier in the trace
is at most the construction); afterwards exactly one palette container for
`panel_id` is mounted; and when the constructed widget carries the
`panel_` name (as the toolkit panel classes do), calling `show_panel` again
with the same `panel_id` succeeds, returns a widget of the same identity,
and still leaves exactly one container. -/
theorem show_panel_lifecycle (v : MariVersion) (panel_id title cname : String)
    (st : UIState) (mw : Widget)
    (hv : ¬ v.major < 4)
    (hmw : (scanWidgets st.widgets ( SHOTGUN_APP_PALETTE_PREFIX ++ panel_id)).2 =
      some mw) :
    (show_panel v panel_id title cname st).raised = none ∧
    (∀ w0,
      (scanWidgets st.widgets ( SHOTGUN_APP_PALETTE_PREFIX ++ panel_id)).1 =
        some w0 →
      (show_panel v panel_id title cname st).widget =
        some { w0 with parent := some mw.wid } ∧
      ∀ i, PanelEvent.construct i ∉ (show_panel v panel_id title cname st).events) ∧
    (∃ pre post wv par,
      (show_panel v panel_id title cname st).events =
        pre ++ PanelEvent.reparent wv par :: post ∧
      ∀ e ∈ pre, ∃ i, e = PanelEvent.construct i) ∧
    ((show_panel v panel_id title cname st).state.palettes.filter
        (fun p => p.name == panel_id)).length = 1 ∧
    (cname = SHOTGUN_APP_PALETTE_PREFIX ++ panel_id →
      ∀ title2,
        (show_panel v panel_id title2 cname
            (show_panel v panel_id title cname st).state).raised = none ∧
        (show_panel v panel_id title2 cname
            (show_panel v panel_id title cname st).state).widget.map Widget.wid =
          (show_panel v panel_id title cname st).widget.map Widget.wid ∧
        ((show_panel v panel_id title2 cname
            (show_panel v panel_id title cname st).state).state.palettes.filter
          (fun p => p.name == panel_id)).length = 1) := by
  obtain ⟨ws, ps, nid⟩ := st
  simp only at hmw ⊢
  cases hs1 : (scanWidgets ws ( SHOTGUN_APP_PALETTE_PREFIX ++ panel_id)).1 with
  | none =>
      have hscan : scanWidgets ws ( SHOTGUN_APP_PALETTE_PREFIX ++ panel_id) =
          (none, some mw) := by
        rw [← hs1, ← hmw]
      rw [show_panel_notfound v panel_id title cname ws ps nid mw hv hscan]
      refine ⟨rfl, ?_, ?_, ?_, ?_⟩
      · intro w0 hw0
        simp at hw0
      · refine ⟨[PanelEvent.construct nid], _, nid, mw.wid, rfl, ?_⟩
        intro e he
        simp only [List.mem_singleton] at he
        exact ⟨nid, he⟩
      · exact palettes_after_unique ps panel_id nid title
      · intro hcn title2
        have h2 : scanWidgets
            (setParent (ws ++ [{ name := cname, wid := nid, parent := none }])
              nid mw.wid)
            ( SHOTGUN_APP_PALETTE_PREFIX ++ panel_id) =
            (some (updParent nid mw.wid
                { name := cname, wid := nid, parent := none }),
             some (updParent nid mw.wid mw)) := by
          rw [scanWidgets_setParent, scanWidgets_append_one, hscan]
          subst hcn
          simp [scanStep, mapScanAcc]
        rw [show_panel_found v panel_id title2 cname _ _ _ _ _ hv h2]
        refine ⟨rfl, ?_, ?_⟩
        · simp [updParent_wid]
        · exact palettes_after_unique _ panel_id _ title2
  | some w0 =>
      have hscan : scanWidgets ws ( SHOTGUN_APP_PALETTE_PREFIX ++ panel_id) =
          (some w0, some mw) := by
        rw [← hs1, ← hmw]
      rw [show_panel_found v panel_id title cname ws ps nid w0 mw hv hscan]
      refine ⟨rfl, ?_, ?_, ?_, ?_⟩
      · intro w0' hw0'
        injection hw0' with hw0'
        subst hw0'
        refine ⟨rfl, ?_⟩
        intro i
        cases hp : palettesFind ps panel_id <;> simp [hp]
      · refine ⟨[], _, w0.wid, mw.wid, rfl, ?_⟩
        intro e he
        cases he
      · exact palettes_after_unique ps panel_id w0.wid title
      · intro hcn title2
        have h2 : scanWidgets (setParent ws w0.wid mw.wid)
            ( SHOTGUN_APP_PALETTE_PREFIX ++ panel_id) =
            (some (updParent w0.wid mw.wid w0),
             some (updParent w0.wid mw.wid mw)) := by
          rw [scanWidgets_setParent, hscan]
          rfl
        rw [show_panel_found v panel_id title2 cname _ _ _ _ _ hv h2]
        refine ⟨rfl, ?_, ?_⟩
        · simp [updParent_wid]
        · exact palettes_after_unique _ panel_id _ title2

/-- Closed instance of `show_panel_lifecycle` on Mari 4.0v1 with a main
window and no pre-existing panel widget: the call mounts exactly one
palette for the panel id, and a second call returns the widget constructed
by the first. -/
theorem show_panel_lifecycle_witness :
    ((show_panel { major := 4, minor := 0, revision := 1 } "myPanel" "T"
        ("panel_" ++ "myPanel")
        { widgets := [{ name := "MainWindow", wid := 0, parent := none }],
          palettes := [], nextId := 5 }).state.palettes.filter
      (fun p => p.name == "myPanel")).length = 1 ∧
    (show_panel { major := 4, minor := 0, revision := 1 } "myPanel" "T2"
        ("panel_" ++ "myPanel")
        (show_panel { major := 4, minor := 0, revision := 1 } "myPanel" "T"
          ("panel_" ++ "myPanel")
          { widgets := [{ name := "MainWindow", wid := 0, parent := none }],
            palettes := [], nextId := 5 }).state).widget.map Widget.wid =
      (show_panel { major := 4, minor := 0, revision := 1 } "myPanel" "T"
        ("panel_" ++ "myPanel")
        { widgets := [{ name := "MainWindow", wid := 0, parent := none }],
          palettes := [], nextId := 5 }).widget.map Widget.wid := by
  have h := show_panel_lifecycle { major := 4, minor := 0, revision := 1 }
    "myPanel" "T" ("panel_" ++ "myPanel")
    { widgets := [{ name := "MainWindow", wid := 0, parent := none }],
      palettes := [], nextId := 5 }
    { name := "MainWindow", wid := 0, parent := none }
    (by decide) (by decide)
  exact ⟨h.2.2.2.1, (h.2.2.2.2 rfl "T2").2.1⟩

end MariEngine
